import Mathlib

/-!
Verification of the audio capture and WAV encoding core of the repository
(`src/lib/audio-recorder.ts`, class `AudioRecorder`).

The embedding is shallow:

* Float samples are modelled as rationals.  Every operation the encoder
  performs on a sample (clamping to `[-1, 1]`, scaling by `0x8000` or
  `0x7FFF`, truncation toward zero inside `DataView.setInt16`) is exact on
  the rationals, so no floating-point rounding is being abstracted away for
  those operations.
* The byte buffer built by `createWAVBlob` is a `List Nat` of byte values;
  `DataView.setUint16` / `setUint32` / `setInt16` little-endian stores are
  byte-list fragments, with the JavaScript wrap-around (`mod 2^16`,
  `mod 2^32`, `ToInt16`) made explicit.
* The mutable instance fields of the class are a record `AudioRecorder`;
  the nullable handles (`audioContext`, `mediaStream`, `sourceNode`,
  `processorNode`) are booleans recording whether the handle is held.
  Methods that can `throw` return `Except String`; methods that cannot are
  total functions on the record.
* The externally driven `onaudioprocess` callback and the control calls
  `pauseRecording` / `resumeRecording` are combined into an event step
  relation, so buffer contents can be proved for whole delivery traces.
-/

/-- Bytes written by the local `writeString` helper of `createWAVBlob`
(lines 119-123): one byte per character, `charCodeAt`. -/
def asciiBytes (str : String) : List Nat := str.data.map Char.toNat

/-- The two bytes of a little-endian `DataView.setUint16` store; the value
is wrapped modulo 2^16 by construction of the two bytes. -/
def u16le (n : Nat) : List Nat := [n % 256, n / 256 % 256]

/-- The four bytes of a little-endian `DataView.setUint32` store; the value
is wrapped modulo 2^32 by construction of the four bytes. -/
def u32le (n : Nat) : List Nat :=
  [n % 256, n / 256 % 256, n / 65536 % 256, n / 16777216 % 256]

/-- Decode an unsigned little-endian 16-bit field at byte offset `off`. -/
def readU16le (bs : List Nat) (off : Nat) : Nat :=
  bs.getD off 0 + 256 * bs.getD (off + 1) 0

/-- Decode an unsigned little-endian 32-bit field at byte offset `off`. -/
def readU32le (bs : List Nat) (off : Nat) : Nat :=
  bs.getD off 0 + 256 * bs.getD (off + 1) 0 + 65536 * bs.getD (off + 2) 0 +
    16777216 * bs.getD (off + 3) 0

/-- Decode a signed little-endian 16-bit field (two's complement). -/
def readI16le (bs : List Nat) (off : Nat) : Int :=
  if readU16le bs off < 32768 then (readU16le bs off : Int)
  else (readU16le bs off : Int) - 65536

/-- Line 143: `Math.max(-1, Math.min(1, buffer[i]))`. -/
def clampSample (x : ℚ) : ℚ := max (-1) (min 1 x)

/-- Line 144: `sample < 0 ? sample * 0x8000 : sample * 0x7FFF`. -/
def scaleSample (sample : ℚ) : ℚ :=
  if sample < 0 then sample * 32768 else sample * 32767

/-- The float-to-PCM value of one sample: clamp, then asymmetric scale. -/
def processSample (x : ℚ) : ℚ := scaleSample (clampSample x)

/-- Truncation toward zero, as JavaScript's `ToIntegerOrInfinity` performs
inside `DataView.setInt16` on a non-integral argument. -/
def truncToInt (q : ℚ) : Int := if q < 0 then -((-q).floor) else q.floor

/-- The two bytes stored by `view.setInt16(offset, pcmSample, true)`
(line 145): truncate toward zero, wrap modulo 2^16, little-endian. -/
def int16Bytes (q : ℚ) : List Nat := u16le ((truncToInt q) % 65536).toNat

/-- The data section of the WAV buffer: the loop of lines 140-148, every
sample of every chunk converted and stored in original chunk order. -/
def sampleDataBytes (audioBuffer : List (List ℚ)) : List Nat :=
  audioBuffer.flatMap (fun buffer => buffer.flatMap (fun x => int16Bytes (processSample x)))

/-- Line 114: `this.audioBuffer.reduce((sum, buffer) => sum + buffer.length, 0)`. -/
def totalSampleCount (audioBuffer : List (List ℚ)) : Nat :=
  audioBuffer.foldl (fun sum buffer => sum + buffer.length) 0

/-- The byte contents of the `Blob` built by `AudioRecorder.createWAVBlob`
(lines 113-151): 44-byte canonical WAV header followed by the converted
16-bit little-endian samples. -/
def createWAVBlob (sampleRate channelCount : Nat) (audioBuffer : List (List ℚ)) : List Nat :=
  let totalSamples := totalSampleCount audioBuffer
  asciiBytes ("RIFF") ++
  u32le (36 + totalSamples * 2) ++
  asciiBytes ("WAVE") ++
  asciiBytes ("fmt ") ++
  u32le 16 ++
  u16le 1 ++
  u16le channelCount ++
  u32le sampleRate ++
  u32le (sampleRate * channelCount * 2) ++
  u16le (channelCount * 2) ++
  u16le 16 ++
  asciiBytes ("data") ++
  u32le (totalSamples * 2) ++
  sampleDataBytes audioBuffer

/-- The mutable instance state of class `AudioRecorder` (lines 12-28).
Each nullable handle field is `true` exactly when the handle is held. -/
structure AudioRecorder where
  audioContext : Bool
  mediaStream : Bool
  sourceNode : Bool
  processorNode : Bool
  audioBuffer : List (List ℚ)
  isRecording : Bool
  isPaused : Bool
  sampleRate : Nat
  channelCount : Nat
  bitDepth : Nat

/-- JavaScript `value || fallback` on an optional number: `undefined` and
`0` are falsy, every other number is kept. -/
def jsOrDefault (value : Option Nat) (fallback : Nat) : Nat :=
  match value with
  | some v => if v = 0 then fallback else v
  | none => fallback

/-- The constructor (lines 24-28): stores the requested format, holds no
handles, has an empty capture buffer and both flags cleared. -/
def mkAudioRecorder (sampleRateOpt channelCountOpt bitDepthOpt : Option Nat) : AudioRecorder :=
  { audioContext := false
    mediaStream := false
    sourceNode := false
    processorNode := false
    audioBuffer := []
    isRecording := false
    isPaused := false
    sampleRate := jsOrDefault sampleRateOpt 44100
    channelCount := jsOrDefault channelCountOpt 2
    bitDepth := jsOrDefault bitDepthOpt 16 }

/-- `AudioRecorder.initialize` (lines 30-78).  `micGranted` models whether
`getUserMedia` resolves; `negotiatedSampleRate` models the sample rate the
device/context actually provides (`audioContext.sampleRate`), which may
differ from the requested hint.  The source performs no already-initialized
check, acquires all four handles on success, and — notably — never reads
the negotiated rate back: the parameter is discarded, `this.sampleRate`
keeps the constructor-requested value. -/
def initializeRecorder (micGranted : Bool) (_negotiatedSampleRate : Nat)
    (s : AudioRecorder) : Except String AudioRecorder :=
  if micGranted then
    Except.ok { s with
      mediaStream := true
      audioContext := true
      sourceNode := true
      processorNode := true }
  else
    Except.error ("Failed to initialize audio recorder: device access denied")

/-- `AudioRecorder.startRecording` (lines 80-88). -/
def startRecording (s : AudioRecorder) : Except String AudioRecorder :=
  if !s.audioContext || !s.processorNode then
    Except.error ("Audio recorder not initialized")
  else
    Except.ok { s with audioBuffer := [], isRecording := true, isPaused := false }

/-- `AudioRecorder.pauseRecording` (lines 90-92): an unconditional flag
assignment; there is no state check and no error path. -/
def pauseRecording (s : AudioRecorder) : AudioRecorder := { s with isPaused := true }

/-- `AudioRecorder.resumeRecording` (lines 94-96): an unconditional flag
assignment; there is no state check and no error path. -/
def resumeRecording (s : AudioRecorder) : AudioRecorder := { s with isPaused := false }

/-- `AudioRecorder.stopRecording` (lines 98-111): requires `isRecording`,
clears both flags, encodes the current capture buffer, clears the buffer,
and returns the encoded bytes. -/
def stopRecording (s : AudioRecorder) : Except String (List Nat × AudioRecorder) :=
  if !s.isRecording then
    Except.error ("No recording in progress")
  else
    Except.ok (createWAVBlob s.sampleRate s.channelCount s.audioBuffer,
      { s with isRecording := false, isPaused := false, audioBuffer := [] })

/-- `AudioRecorder.cleanup` (lines 160-184): releases every handle, clears
the capture buffer and both flags.  It is a total function: no code path
throws. -/
def cleanup (s : AudioRecorder) : AudioRecorder :=
  { s with
    processorNode := false
    sourceNode := false
    audioContext := false
    mediaStream := false
    audioBuffer := []
    isRecording := false
    isPaused := false }

/-- The interleaving loop of the `onaudioprocess` callback (lines 60-66):
`audioData[i * numberOfChannels + channel] = channelData[i]`, i.e. the
resulting flat chunk is frame-major: frame 0 of every channel in channel
order, then frame 1, and so on. -/
def interleaveChannels (channels : List (List ℚ)) (frames : Nat) : List ℚ :=
  (List.range frames).flatMap (fun i => channels.map (fun channelData => channelData.getD i 0))

/-- The `onaudioprocess` callback body (lines 55-70): the interleaved chunk
is appended to `audioBuffer` exactly when `isRecording && !isPaused`;
otherwise the delivery leaves the state untouched. -/
def onAudioProcess (s : AudioRecorder) (channels : List (List ℚ)) (frames : Nat) : AudioRecorder :=
  if s.isRecording && !s.isPaused then
    { s with audioBuffer := s.audioBuffer ++ [interleaveChannels channels frames] }
  else
    s

/-- One externally observable event while a session is live: a hardware
callback delivery (per-channel sample blocks), or a control-thread pause or
resume call. -/
inductive RecEvent where
  | deliver (channels : List (List ℚ)) (frames : Nat)
  | pause
  | resume

/-- Effect of one event on the recorder state. -/
def recStep (s : AudioRecorder) : RecEvent → AudioRecorder
  | RecEvent.deliver channels frames => onAudioProcess s channels frames
  | RecEvent.pause => pauseRecording s
  | RecEvent.resume => resumeRecording s

/-- State after a whole trace of deliveries and pause/resume calls. -/
def runEvents (s : AudioRecorder) (evs : List RecEvent) : AudioRecorder :=
  evs.foldl recStep s

/-- The chunks a trace is expected to capture, given the paused flag at the
start of the trace: deliveries made while not paused, in delivery order;
deliveries made while paused are skipped. -/
def capturedChunks (paused : Bool) : List RecEvent → List (List ℚ)
  | [] => []
  | RecEvent.deliver channels frames :: rest =>
      if paused then capturedChunks paused rest
      else interleaveChannels channels frames :: capturedChunks paused rest
  | RecEvent.pause :: rest => capturedChunks true rest
  | RecEvent.resume :: rest => capturedChunks false rest

/-- The spec state `Recording`: actively capturing. -/
def inRecordingState (s : AudioRecorder) : Prop :=
  s.isRecording = true ∧ s.isPaused = false

/-- The spec state `Paused`. -/
def inPausedState (s : AudioRecorder) : Prop :=
  s.isRecording = true ∧ s.isPaused = true

/-- A freshly constructed recorder with the default-equal explicit options. -/
def defaultRecorder : AudioRecorder := mkAudioRecorder (some 44100) (some 2) (some 16)

/-- An initialized recorder mid-recording, used to instantiate theorems. -/
def sampleRecorder : AudioRecorder :=
  { defaultRecorder with
    audioContext := true
    mediaStream := true
    sourceNode := true
    processorNode := true
    isRecording := true }

/-- A two-sample capture buffer used to instantiate the layout theorem. -/
def exampleBuffer : List (List ℚ) := [[1, -1]]

/-- A delivery trace with a pause/resume round trip in the middle. -/
def exampleEvents : List RecEvent :=
  [RecEvent.deliver [[1], [1]] 1,
   RecEvent.pause,
   RecEvent.deliver [[2], [2]] 1,
   RecEvent.resume,
   RecEvent.deliver [[3], [3]] 1]

/-- Bridge between the executable `Rat.floor` and the order-theoretic
`Int.floor` of the `FloorRing` instance. -/
theorem ratFloor_eq_intFloor (q : ℚ) : Rat.floor q = Int.floor q := by
  rw [Rat.floor_def, Rat.floor_def']

theorem truncToInt_intCast (n : Int) : truncToInt (n : ℚ) = n := by
  unfold truncToInt
  rcases lt_or_le (n : ℚ) 0 with h | h
  · rw [if_pos h, ← Int.cast_neg, ratFloor_eq_intFloor, Int.floor_intCast, neg_neg]
  · rw [if_neg (not_lt.mpr h), ratFloor_eq_intFloor, Int.floor_intCast]

theorem asciiBytes_RIFF : asciiBytes ("RIFF") = [82, 73, 70, 70] := rfl

theorem asciiBytes_WAVE : asciiBytes ("WAVE") = [87, 65, 86, 69] := rfl

theorem asciiBytes_fmtSpace : asciiBytes ("fmt ") = [102, 109, 116, 32] := rfl

theorem asciiBytes_dataTag : asciiBytes ("data") = [100, 97, 116, 97] := rfl

theorem totalSampleCount_shift (buf : List (List ℚ)) :
    ∀ n : Nat, buf.foldl (fun sum buffer => sum + buffer.length) n =
      n + totalSampleCount buf := by
  induction buf with
  | nil => intro n; simp [totalSampleCount]
  | cons b rest ih =>
    intro n
    simp only [totalSampleCount, List.foldl_cons] at *
    rw [ih (n + b.length), ih (0 + b.length)]
    omega

theorem totalSampleCount_cons (b : List ℚ) (rest : List (List ℚ)) :
    totalSampleCount (b :: rest) = b.length + totalSampleCount rest := by
  simp only [totalSampleCount, List.foldl_cons]
  rw [totalSampleCount_shift rest (0 + b.length), totalSampleCount_shift rest 0]
  omega

theorem int16Bytes_length (q : ℚ) : (int16Bytes q).length = 2 := rfl

theorem sampleDataBytes_length (buf : List (List ℚ)) :
    (sampleDataBytes buf).length = 2 * totalSampleCount buf := by
  induction buf with
  | nil => simp [sampleDataBytes, totalSampleCount]
  | cons b rest ih =>
    have hb : (b.flatMap (fun x => int16Bytes (processSample x))).length = 2 * b.length := by
      induction b with
      | nil => simp
      | cons a t iht => simp [List.flatMap_cons, int16Bytes_length] at iht ⊢; omega
    simp only [sampleDataBytes, List.flatMap_cons, List.length_append] at ih ⊢
    rw [hb, ih, totalSampleCount_cons]
    omega

theorem createWAVBlob_drop_44 (R C : Nat) (buf : List (List ℚ)) :
    (createWAVBlob R C buf).drop 44 = sampleDataBytes buf := rfl

theorem createWAVBlob_length (R C : Nat) (buf : List (List ℚ)) :
    (createWAVBlob R C buf).length = 44 + totalSampleCount buf * 2 := by
  simp only [createWAVBlob, asciiBytes_RIFF, asciiBytes_WAVE, asciiBytes_fmtSpace,
    asciiBytes_dataTag, u32le, u16le, List.length_append, List.length_cons,
    List.length_nil, sampleDataBytes_length]
  omega

theorem runEvents_nil (s : AudioRecorder) : runEvents s [] = s := rfl

theorem runEvents_cons (s : AudioRecorder) (e : RecEvent) (evs : List RecEvent) :
    runEvents s (e :: evs) = runEvents (recStep s e) evs := rfl

theorem runEvents_buffer (evs : List RecEvent) :
    ∀ s : AudioRecorder, s.isRecording = true →
      (runEvents s evs).audioBuffer = s.audioBuffer ++ capturedChunks s.isPaused evs ∧
      (runEvents s evs).isRecording = true := by
  induction evs with
  | nil =>
    intro s h
    exact ⟨by simp [runEvents_nil, capturedChunks], h⟩
  | cons e rest ih =>
    intro s h
    cases e with
    | deliver channels frames =>
      rw [runEvents_cons]
      cases hp : s.isPaused with
      | true =>
        have hstep : recStep s (RecEvent.deliver channels frames) = s := by
          simp [recStep, onAudioProcess, hp]
        rw [hstep]
        refine ⟨?_, (ih s h).2⟩
        rw [(ih s h).1, hp]
        simp [capturedChunks]
      | false =>
        have hstep : recStep s (RecEvent.deliver channels frames) =
            { s with audioBuffer := s.audioBuffer ++ [interleaveChannels channels frames] } := by
          simp [recStep, onAudioProcess, h, hp]
        rw [hstep]
        refine ⟨?_, (ih { s with audioBuffer := s.audioBuffer ++ [interleaveChannels channels frames] } h).2⟩
        rw [(ih { s with audioBuffer := s.audioBuffer ++ [interleaveChannels channels frames] } h).1]
        show (s.audioBuffer ++ [interleaveChannels channels frames]) ++ capturedChunks s.isPaused rest =
          s.audioBuffer ++ capturedChunks false (RecEvent.deliver channels frames :: rest)
        rw [hp]
        simp [capturedChunks]
    | pause =>
      rw [runEvents_cons, show recStep s RecEvent.pause = pauseRecording s from rfl]
      refine ⟨?_, (ih (pauseRecording s) h).2⟩
      rw [(ih (pauseRecording s) h).1]
      show s.audioBuffer ++ capturedChunks true rest =
        s.audioBuffer ++ capturedChunks s.isPaused (RecEvent.pause :: rest)
      simp [capturedChunks]
    | resume =>
      rw [runEvents_cons, show recStep s RecEvent.resume = resumeRecording s from rfl]
      refine ⟨?_, (ih (resumeRecording s) h).2⟩
      rw [(ih (resumeRecording s) h).1]
      show s.audioBuffer ++ capturedChunks false rest =
        s.audioBuffer ++ capturedChunks s.isPaused (RecEvent.resume :: rest)
      simp [capturedChunks]

theorem readU16le_drop (bs : List Nat) (off : Nat) :
    readU16le bs off = readU16le (bs.drop off) 0 := by
  simp [readU16le, List.getD_eq_getElem?_getD, List.getElem?_drop]

theorem readU32le_drop (bs : List Nat) (off : Nat) :
    readU32le bs off = readU32le (bs.drop off) 0 := by
  simp [readU32le, List.getD_eq_getElem?_getD, List.getElem?_drop]

theorem readU16le_u16le (n : Nat) (tail : List Nat) (h : n < 65536) :
    readU16le (u16le n ++ tail) 0 = n := by
  have e : readU16le (u16le n ++ tail) 0 = n % 256 + 256 * (n / 256 % 256) := rfl
  rw [e]
  omega

theorem readU32le_u32le (n : Nat) (tail : List Nat) (h : n < 4294967296) :
    readU32le (u32le n ++ tail) 0 = n := by
  have e : readU32le (u32le n ++ tail) 0 =
      n % 256 + 256 * (n / 256 % 256) + 65536 * (n / 65536 % 256) +
      16777216 * (n / 16777216 % 256) := rfl
  rw [e]
  omega

set_option maxHeartbeats 4000000 in
/-- Claim C1: for every capture buffer, channel count `C` and sample rate
`R` (with the field values representable in their header fields, as every
real recording satisfies), the encoder yields exactly `44 + T * 2` bytes,
where `T` is the total interleaved sample count, with the canonical WAV
header fields at their offsets, followed by the converted 16-bit
little-endian samples in original chunk order. -/
theorem createWAVBlob_layout (R C : Nat) (buf : List (List ℚ)) (T : Nat)
    (hT : totalSampleCount buf = T)
    (hsize : 36 + T * 2 < 4294967296)
    (hC : C * 2 < 65536)
    (hR : R < 4294967296)
    (hBR : R * C * 2 < 4294967296) :
    (createWAVBlob R C buf).length = 44 + T * 2 ∧
    (createWAVBlob R C buf).take 4 = asciiBytes ("RIFF") ∧
    readU32le (createWAVBlob R C buf) 4 = 36 + T * 2 ∧
    ((createWAVBlob R C buf).drop 8).take 4 = asciiBytes ("WAVE") ∧
    ((createWAVBlob R C buf).drop 12).take 4 = asciiBytes ("fmt ") ∧
    readU32le (createWAVBlob R C buf) 16 = 16 ∧
    readU16le (createWAVBlob R C buf) 20 = 1 ∧
    readU16le (createWAVBlob R C buf) 22 = C ∧
    readU32le (createWAVBlob R C buf) 24 = R ∧
    readU32le (createWAVBlob R C buf) 28 = R * C * 2 ∧
    readU16le (createWAVBlob R C buf) 32 = C * 2 ∧
    readU16le (createWAVBlob R C buf) 34 = 16 ∧
    ((createWAVBlob R C buf).drop 36).take 4 = asciiBytes ("data") ∧
    readU32le (createWAVBlob R C buf) 40 = T * 2 ∧
    (createWAVBlob R C buf).drop 44 = sampleDataBytes buf := by
  subst hT
  refine ⟨createWAVBlob_length R C buf, rfl, ?_, rfl, rfl, ?_, ?_, ?_, ?_, ?_, ?_, ?_, rfl, ?_,
    createWAVBlob_drop_44 R C buf⟩
  · rw [readU32le_drop,
      show (createWAVBlob R C buf).drop 4 =
        u32le (36 + totalSampleCount buf * 2) ++ (createWAVBlob R C buf).drop 8 from rfl]
    exact readU32le_u32le _ _ hsize
  · rw [readU32le_drop,
      show (createWAVBlob R C buf).drop 16 = u32le 16 ++ (createWAVBlob R C buf).drop 20 from rfl]
    exact readU32le_u32le 16 _ (by norm_num)
  · rw [readU16le_drop,
      show (createWAVBlob R C buf).drop 20 = u16le 1 ++ (createWAVBlob R C buf).drop 22 from rfl]
    exact readU16le_u16le 1 _ (by norm_num)
  · rw [readU16le_drop,
      show (createWAVBlob R C buf).drop 22 = u16le C ++ (createWAVBlob R C buf).drop 24 from rfl]
    exact readU16le_u16le C _ (by omega)
  · rw [readU32le_drop,
      show (createWAVBlob R C buf).drop 24 = u32le R ++ (createWAVBlob R C buf).drop 28 from rfl]
    exact readU32le_u32le R _ hR
  · rw [readU32le_drop,
      show (createWAVBlob R C buf).drop 28 =
        u32le (R * C * 2) ++ (createWAVBlob R C buf).drop 32 from rfl]
    exact readU32le_u32le _ _ hBR
  · rw [readU16le_drop,
      show (createWAVBlob R C buf).drop 32 =
        u16le (C * 2) ++ (createWAVBlob R C buf).drop 34 from rfl]
    exact readU16le_u16le _ _ hC
  · rw [readU16le_drop,
      show (createWAVBlob R C buf).drop 34 = u16le 16 ++ (createWAVBlob R C buf).drop 36 from rfl]
    exact readU16le_u16le 16 _ (by norm_num)
  · rw [readU32le_drop,
      show (createWAVBlob R C buf).drop 40 =
        u32le (totalSampleCount buf * 2) ++ (createWAVBlob R C buf).drop 44 from rfl]
    exact readU32le_u32le _ _ (by omega)

theorem createWAVBlob_layout_witness :
    totalSampleCount exampleBuffer = 2 ∧
    36 + 2 * 2 < 4294967296 ∧
    2 * 2 < 65536 ∧
    44100 < 4294967296 ∧
    44100 * 2 * 2 < 4294967296 ∧
    ((createWAVBlob 44100 2 exampleBuffer).length = 44 + 2 * 2 ∧
     (createWAVBlob 44100 2 exampleBuffer).take 4 = asciiBytes ("RIFF") ∧
     readU32le (createWAVBlob 44100 2 exampleBuffer) 4 = 36 + 2 * 2 ∧
     ((createWAVBlob 44100 2 exampleBuffer).drop 8).take 4 = asciiBytes ("WAVE") ∧
     ((createWAVBlob 44100 2 exampleBuffer).drop 12).take 4 = asciiBytes ("fmt ") ∧
     readU32le (createWAVBlob 44100 2 exampleBuffer) 16 = 16 ∧
     readU16le (createWAVBlob 44100 2 exampleBuffer) 20 = 1 ∧
     readU16le (createWAVBlob 44100 2 exampleBuffer) 22 = 2 ∧
     readU32le (createWAVBlob 44100 2 exampleBuffer) 24 = 44100 ∧
     readU32le (createWAVBlob 44100 2 exampleBuffer) 28 = 44100 * 2 * 2 ∧
     readU16le (createWAVBlob 44100 2 exampleBuffer) 32 = 2 * 2 ∧
     readU16le (createWAVBlob 44100 2 exampleBuffer) 34 = 16 ∧
     ((createWAVBlob 44100 2 exampleBuffer).drop 36).take 4 = asciiBytes ("data") ∧
     readU32le (createWAVBlob 44100 2 exampleBuffer) 40 = 2 * 2 ∧
     (createWAVBlob 44100 2 exampleBuffer).drop 44 = sampleDataBytes exampleBuffer) :=
  ⟨rfl, by norm_num, by norm_num, by norm_num, by norm_num,
    createWAVBlob_layout 44100 2 exampleBuffer 2 rfl (by norm_num) (by norm_num)
      (by norm_num) (by norm_num)⟩

/-- Claim C2: the encoder clamps each sample to `[-1, 1]` and then scales
the clamped value `s` by `32768` when `s < 0` and by `32767` when
`s ≥ 0`; consequently `1.5` encodes identically to `1.0` and `-1.5`
identically to `-1.0`.  The mapping is a pure function of the sample, so
it is deterministic across runs by construction. -/
theorem clamp_scale_policy :
    (∀ x : ℚ,
      -1 ≤ clampSample x ∧
      clampSample x ≤ 1 ∧
      (x < -1 → clampSample x = -1) ∧
      (1 < x → clampSample x = 1) ∧
      (-1 ≤ x → x ≤ 1 → clampSample x = x) ∧
      (clampSample x < 0 → processSample x = clampSample x * 32768) ∧
      (0 ≤ clampSample x → processSample x = clampSample x * 32767)) ∧
    processSample (3 / 2) = processSample 1 ∧
    processSample (-(3 / 2)) = processSample (-1) ∧
    int16Bytes (processSample (3 / 2)) = int16Bytes (processSample 1) ∧
    int16Bytes (processSample (-(3 / 2))) = int16Bytes (processSample (-1)) := by
  have h15 : processSample (3 / 2) = processSample 1 := by
    norm_num [processSample, clampSample, scaleSample]
  have hm15 : processSample (-(3 / 2)) = processSample (-1) := by
    norm_num [processSample, clampSample, scaleSample]
  refine ⟨?_, h15, hm15, congrArg int16Bytes h15, congrArg int16Bytes hm15⟩
  intro x
  refine ⟨le_max_left _ _, max_le (by norm_num) (min_le_left _ _), ?_, ?_, ?_, ?_, ?_⟩
  · intro h
    unfold clampSample
    rw [min_eq_right (by linarith), max_eq_left (by linarith)]
  · intro h
    unfold clampSample
    rw [min_eq_left (by linarith), max_eq_right (by norm_num)]
  · intro h1 h2
    unfold clampSample
    rw [min_eq_right h2, max_eq_right h1]
  · intro h
    unfold processSample scaleSample
    rw [if_pos h]
  · intro h
    unfold processSample scaleSample
    rw [if_neg (not_lt.mpr h)]

/-- Claim C3: a delivered chunk is appended to the capture buffer if and
only if the recorder is Recording and not Paused at delivery time; over any
trace of deliveries interleaved with pause/resume calls, the buffer (and
hence the data section of the final encoded output) consists of exactly
the chunks delivered while not paused, in original delivery order, with
none reordered, dropped or duplicated, and chunks delivered while Paused
never appear. -/
theorem capture_append_iff_recording (s t : AudioRecorder) (evs : List RecEvent)
    (channels : List (List ℚ)) (frames : Nat) (h : s.isRecording = true) :
    ((onAudioProcess t channels frames).audioBuffer
        = t.audioBuffer ++ [interleaveChannels channels frames]
      ↔ (t.isRecording = true ∧ t.isPaused = false)) ∧
    (runEvents s evs).audioBuffer = s.audioBuffer ++ capturedChunks s.isPaused evs ∧
    (createWAVBlob (runEvents s evs).sampleRate (runEvents s evs).channelCount
        ((runEvents s evs).audioBuffer)).drop 44
      = sampleDataBytes (s.audioBuffer ++ capturedChunks s.isPaused evs) := by
  refine ⟨?_, (runEvents_buffer evs s h).1, ?_⟩
  · constructor
    · intro hEq
      by_contra hcond
      have hstep : onAudioProcess t channels frames = t := by
        unfold onAudioProcess
        cases hr : t.isRecording with
        | false => simp [hr]
        | true =>
          cases hpp : t.isPaused with
          | true => simp [hr, hpp]
          | false => exact absurd ⟨hr, hpp⟩ hcond
      rw [hstep] at hEq
      have hlen := congrArg List.length hEq
      simp at hlen
    · intro hcond
      unfold onAudioProcess
      rw [hcond.1, hcond.2]
      rfl
  · rw [createWAVBlob_drop_44, (runEvents_buffer evs s h).1]

theorem capture_append_iff_recording_witness :
    ((onAudioProcess sampleRecorder [[1], [1]] 1).audioBuffer
        = sampleRecorder.audioBuffer ++ [interleaveChannels [[1], [1]] 1]
      ↔ (sampleRecorder.isRecording = true ∧ sampleRecorder.isPaused = false)) ∧
    (runEvents sampleRecorder exampleEvents).audioBuffer
      = sampleRecorder.audioBuffer ++ capturedChunks sampleRecorder.isPaused exampleEvents ∧
    (createWAVBlob (runEvents sampleRecorder exampleEvents).sampleRate
        (runEvents sampleRecorder exampleEvents).channelCount
        ((runEvents sampleRecorder exampleEvents).audioBuffer)).drop 44
      = sampleDataBytes
          (sampleRecorder.audioBuffer ++ capturedChunks sampleRecorder.isPaused exampleEvents) :=
  capture_append_iff_recording sampleRecorder sampleRecorder exampleEvents [[1], [1]] 1 rfl

/-- Claim C4: `stopRecording` succeeds exactly from the Recording and
Paused states — it then returns the WAV bytes encoded from the current
capture buffer and leaves the state with both flags cleared and the buffer
emptied — and from every other state (Uninitialized, Initialized, or
already Stopped, i.e. whenever `isRecording` is unset) it fails with the
not-recording error. -/
theorem stopRecording_state_contract (s : AudioRecorder) :
    ((inRecordingState s ∨ inPausedState s) →
      stopRecording s = Except.ok
        (createWAVBlob s.sampleRate s.channelCount s.audioBuffer,
         { s with isRecording := false, isPaused := false, audioBuffer := [] })) ∧
    (¬(inRecordingState s ∨ inPausedState s) →
      stopRecording s = Except.error ("No recording in progress")) := by
  constructor
  · intro h
    have hrec : s.isRecording = true := by
      rcases h with h | h
      · exact h.1
      · exact h.1
    simp [stopRecording, hrec]
  · intro h
    cases hrec : s.isRecording with
    | false => simp [stopRecording, hrec]
    | true =>
      exfalso
      apply h
      cases hp : s.isPaused with
      | false => exact Or.inl ⟨hrec, hp⟩
      | true => exact Or.inr ⟨hrec, hp⟩

theorem stopRecording_state_contract_witness :
    (inRecordingState sampleRecorder ∨ inPausedState sampleRecorder) ∧
    stopRecording sampleRecorder = Except.ok
      (createWAVBlob sampleRecorder.sampleRate sampleRecorder.channelCount
        sampleRecorder.audioBuffer,
       { sampleRecorder with isRecording := false, isPaused := false, audioBuffer := [] }) :=
  ⟨Or.inl ⟨rfl, rfl⟩,
   (stopRecording_state_contract sampleRecorder).1 (Or.inl ⟨rfl, rfl⟩)⟩

/-- Claim C5 (divergence witness): the sample rate written into the WAV
header is the constructor-requested value, not the negotiated device rate.
With a requested rate of 44100 and a negotiated rate of 48000, a
successful `initialize` leaves `sampleRate` at 44100 and the header field
at offset 24 decodes to 44100 — never 48000. -/
theorem header_rate_ignores_negotiated :
    ∃ s1, initializeRecorder true 48000 defaultRecorder = Except.ok s1 ∧
      s1.sampleRate = 44100 ∧
      readU32le (createWAVBlob s1.sampleRate s1.channelCount s1.audioBuffer) 24 = 44100 ∧
      (44100 : Nat) ≠ 48000 := by
  refine ⟨{ defaultRecorder with
    mediaStream := true, audioContext := true, sourceNode := true, processorNode := true },
    rfl, rfl, ?_, by norm_num⟩
  show readU32le (createWAVBlob 44100 2 []) 24 = 44100
  rw [readU32le_drop,
    show (createWAVBlob 44100 2 []).drop 24 = u32le 44100 ++ (createWAVBlob 44100 2 []).drop 28
      from rfl]
  exact readU32le_u32le 44100 _ (by norm_num)

/-- Claim C6: an empty capture buffer is not an error: from any initialized
state, `startRecording` immediately followed by `stopRecording` yields a
structurally valid WAV buffer of exactly 44 bytes whose data-size field at
offset 40 is 0, for every valid (sampleRate, channelCount) pair. -/
theorem empty_capture_valid_wav (s : AudioRecorder)
    (hctx : s.audioContext = true) (hproc : s.processorNode = true)
    (hR : 0 < s.sampleRate) (hC : 0 < s.channelCount) :
    ∃ s1 s2, startRecording s = Except.ok s1 ∧
      stopRecording s1 = Except.ok (createWAVBlob s.sampleRate s.channelCount [], s2) ∧
      (createWAVBlob s.sampleRate s.channelCount []).length = 44 ∧
      readU32le (createWAVBlob s.sampleRate s.channelCount []) 40 = 0 ∧
      (createWAVBlob s.sampleRate s.channelCount []).take 4 = asciiBytes ("RIFF") ∧
      ((createWAVBlob s.sampleRate s.channelCount []).drop 8).take 4 = asciiBytes ("WAVE") := by
  refine ⟨{ s with audioBuffer := [], isRecording := true, isPaused := false },
    { s with audioBuffer := [], isRecording := false, isPaused := false }, ?_, rfl, rfl, ?_, rfl, rfl⟩
  · unfold startRecording
    rw [hctx, hproc]
    rfl
  · rw [readU32le_drop,
      show (createWAVBlob s.sampleRate s.channelCount []).drop 40 =
        u32le 0 ++ (createWAVBlob s.sampleRate s.channelCount []).drop 44 from rfl]
    exact readU32le_u32le 0 _ (by norm_num)

theorem empty_capture_valid_wav_witness :
    sampleRecorder.audioContext = true ∧
    sampleRecorder.processorNode = true ∧
    0 < sampleRecorder.sampleRate ∧
    0 < sampleRecorder.channelCount ∧
    (∃ s1 s2, startRecording sampleRecorder = Except.ok s1 ∧
      stopRecording s1 = Except.ok
        (createWAVBlob sampleRecorder.sampleRate sampleRecorder.channelCount [], s2) ∧
      (createWAVBlob sampleRecorder.sampleRate sampleRecorder.channelCount []).length = 44 ∧
      readU32le (createWAVBlob sampleRecorder.sampleRate sampleRecorder.channelCount []) 40 = 0 ∧
      (createWAVBlob sampleRecorder.sampleRate sampleRecorder.channelCount []).take 4
        = asciiBytes ("RIFF") ∧
      ((createWAVBlob sampleRecorder.sampleRate sampleRecorder.channelCount []).drop 8).take 4
        = asciiBytes ("WAVE")) :=
  ⟨rfl, rfl, by decide, by decide,
   empty_capture_valid_wav sampleRecorder rfl rfl (by decide) (by decide)⟩

/-- Claim C7 (divergence witness): calling `initialize` a second time
without an intervening `cleanup` does not fail: with microphone access
granted both the first and the second call return successfully, so no
already-initialized error is ever raised. -/
theorem initialize_twice_no_error :
    ∃ s1 s2, initializeRecorder true 44100 defaultRecorder = Except.ok s1 ∧
      initializeRecorder true 44100 s1 = Except.ok s2 :=
  ⟨{ defaultRecorder with
      mediaStream := true, audioContext := true, sourceNode := true, processorNode := true },
   { defaultRecorder with
      mediaStream := true, audioContext := true, sourceNode := true, processorNode := true },
   rfl, rfl⟩

/-- Claim C8 (divergence witness): `pauseRecording` and `resumeRecording`
are unconditional flag assignments — total functions with no error path —
so invoking them outside their required states is silently accepted: on a
freshly constructed recorder (which is in no Recording or Paused state)
both return normally. -/
theorem pause_resume_no_state_check :
    ¬ inRecordingState defaultRecorder ∧
    pauseRecording defaultRecorder = { defaultRecorder with isPaused := true } ∧
    ¬ inPausedState defaultRecorder ∧
    resumeRecording defaultRecorder = { defaultRecorder with isPaused := false } := by
  refine ⟨?_, rfl, ?_, rfl⟩
  · intro h
    have hx : defaultRecorder.isRecording = true := h.1
    simp [defaultRecorder, mkAudioRecorder] at hx
  · intro h
    have hx : defaultRecorder.isRecording = true := h.1
    simp [defaultRecorder, mkAudioRecorder] at hx

/-- Claim C9: `cleanup` never throws (it is a total function), may be
called from any state including mid-recording, releases every handle,
clears the capture buffer, resets both flags, and is idempotent:
`cleanup (cleanup s) = cleanup s`. -/
theorem cleanup_idempotent_total (s : AudioRecorder) :
    cleanup (cleanup s) = cleanup s ∧
    (cleanup s).processorNode = false ∧
    (cleanup s).sourceNode = false ∧
    (cleanup s).audioContext = false ∧
    (cleanup s).mediaStream = false ∧
    (cleanup s).audioBuffer = [] ∧
    (cleanup s).isRecording = false ∧
    (cleanup s).isPaused = false :=
  ⟨rfl, rfl, rfl, rfl, rfl, rfl, rfl, rfl⟩

/-- Claim C10: for every input sample, the clamp-then-scale conversion
produces a PCM integer within the signed 16-bit range `[-32768, 32767]`,
so the 16-bit store in the encoder is exact: decoding the stored two bytes
as a signed little-endian 16-bit value returns the intended integer, with
no wrap-around or truncation. -/
theorem pcm_within_int16_range (x : ℚ) :
    -32768 ≤ truncToInt (processSample x) ∧
    truncToInt (processSample x) ≤ 32767 ∧
    readI16le (int16Bytes (processSample x)) 0 = truncToInt (processSample x) := by
  have hclamp_lo : -1 ≤ clampSample x := le_max_left _ _
  have hclamp_hi : clampSample x ≤ 1 := max_le (by norm_num) (min_le_left _ _)
  have hq_lo : -32768 ≤ processSample x := by
    unfold processSample scaleSample
    by_cases hneg : clampSample x < 0
    · rw [if_pos hneg]
      linarith
    · rw [if_neg hneg]
      push_neg at hneg
      linarith
  have hq_hi : processSample x ≤ 32767 := by
    unfold processSample scaleSample
    by_cases hneg : clampSample x < 0
    · rw [if_pos hneg]
      linarith
    · rw [if_neg hneg]
      linarith
  have htr_lo : -32768 ≤ truncToInt (processSample x) := by
    unfold truncToInt
    by_cases hneg : processSample x < 0
    · rw [if_pos hneg, ratFloor_eq_intFloor]
      have hfl : Int.floor (-(processSample x)) ≤ 32768 := by
        rw [Int.floor_le_iff]
        push_cast
        linarith
      omega
    · rw [if_neg hneg, ratFloor_eq_intFloor]
      have hfl : (0 : Int) ≤ Int.floor (processSample x) :=
        Int.floor_nonneg.mpr (by linarith [not_lt.mp hneg])
      omega
  have htr_hi : truncToInt (processSample x) ≤ 32767 := by
    unfold truncToInt
    by_cases hneg : processSample x < 0
    · rw [if_pos hneg, ratFloor_eq_intFloor]
      have hfl : (0 : Int) ≤ Int.floor (-(processSample x)) :=
        Int.floor_nonneg.mpr (by linarith)
      omega
    · rw [if_neg hneg, ratFloor_eq_intFloor]
      rw [Int.floor_le_iff]
      push_cast
      linarith
  refine ⟨htr_lo, htr_hi, ?_⟩
  have e : readI16le (int16Bytes (processSample x)) 0 =
      (if ((truncToInt (processSample x)) % 65536).toNat % 256 +
          256 * (((truncToInt (processSample x)) % 65536).toNat / 256 % 256) < 32768
       then ((((truncToInt (processSample x)) % 65536).toNat % 256 +
          256 * (((truncToInt (processSample x)) % 65536).toNat / 256 % 256) : Nat) : Int)
       else ((((truncToInt (processSample x)) % 65536).toNat % 256 +
          256 * (((truncToInt (processSample x)) % 65536).toNat / 256 % 256) : Nat) : Int)
          - 65536) := rfl
  rw [e]
  split <;> omega
